import Mathlib

/-!
# Verification of the LTA questionnaire sequencing and scoring engine

Shallow embedding of the navigation / skip-logic router (`src/js/router.js`),
the analytics engine (`src/js/analytics.js`) and the progress computation of
the storage layer (`src/js/db.js`).  JavaScript numbers are modelled as `ℚ`
(the code only produces finite decimal values on the paths under study; a
`parseInt` that would yield `NaN` in the source is modelled as a parse
failure, see `jsParseInt`).  A JavaScript `Map` is modelled as an association
list queried by first match (`rget`); `Map.set` replaces the existing entry
(`mset`), so the keys of any reachable store are pairwise distinct.
-/

/-- A question of the catalog (`LTA_QUESTIONNAIRE.questions[i]`).
`stakeholderTypes` flattens `question.logic?.stakeholderTypes`: `none` means
the question declares no stakeholder restriction, `some l` that it declares
the restriction list `l` (an empty list is a declared — always excluding —
restriction, matching the truthiness of `[]` in the source). -/
structure Question where
  id : String
  sectionId : String
  required : Bool
  stakeholderTypes : Option (List String)
deriving Repr, DecidableEq

/-- A stored response record.  `value` models `response.value` (absent field
as `none`), `values` the multi-select list, `matrix` the row→column record of
a matrix answer, `sectionId` the `section` tag carried on the record. -/
structure Response where
  questionId : String
  value : Option String
  values : Option (List String)
  matrix : Option (List (String × String))
  sectionId : Option String
deriving Repr, DecidableEq

/-- The in-memory response `Map`, as an association list keyed by question id. -/
abbrev Responses := List (String × Response)

/-- `Map.get` — first entry with the key. -/
def rget (rs : Responses) (k : String) : Option Response :=
  (rs.find? (fun p => p.1 == k)).map Prod.snd

/-- `Map.has`. -/
def rhas (rs : Responses) (k : String) : Bool :=
  (rs.find? (fun p => p.1 == k)).isSome

/-- `Map.set` — overwrite the existing entry or append a new one. -/
def mset (rs : Responses) (k : String) (v : Response) : Responses :=
  if rhas rs k then rs.map (fun p => if p.1 == k then (k, v) else p)
  else rs ++ [(k, v)]

/-- The condition record carried by a skip rule (`rule.condition`).
`value` is the exact-match trigger (`condition.value`; the source tests its
truthiness, modelled as presence), `includesNone` / `includesAny` the two
emptiness predicates, `fromQ` the referenced prior question
(`condition.from`; `from` is a Lean keyword). -/
structure Condition where
  value : Option String
  includesNone : Bool
  includesAny : Bool
  fromQ : String
deriving Repr, DecidableEq

/-- The target of a skip rule: `{question: q}` for `skipTo`, or the raw
`"start-end"` range string for `showSection`. -/
inductive SkipTarget where
  | toQuestion (q : String)
  | range (raw : String)
deriving Repr, DecidableEq

/-- A skip rule (`config.skipLogic[key]`).  `fromQ` models `rule.from`. -/
structure SkipRule where
  action : String
  target : Option SkipTarget
  fromQ : Option String
  condition : Condition
deriving Repr, DecidableEq

/-- The questionnaire configuration: ordered question list and the skip-logic
table, an object keyed by `"questionId_value"` strings. -/
structure Config where
  questions : List Question
  skipLogic : List (String × SkipRule)
deriving Repr

/-- Property lookup in the skip-logic object (`this.skipLogic[logicKey]`). -/
def lookupRule (sl : List (String × SkipRule)) (key : String) : Option SkipRule :=
  (sl.find? (fun p => p.1 == key)).map Prod.snd

/-- `LTASkipLogicProcessor.evaluateCondition` (router.js:349-366).  A missing
referenced response makes the equals predicate false, the is-empty predicate
true and the is-nonempty predicate false, exactly as the source's truthiness
checks do. -/
def evaluateCondition (c : Condition) (rs : Responses) : Bool :=
  match c.value with
  | some v =>
    match rget rs c.fromQ with
    | some r => r.value == some v
    | none => false
  | none =>
    if c.includesNone then
      match rget rs c.fromQ with
      | none => true
      | some r =>
        match r.values with
        | none => true
        | some vs => vs.isEmpty
    else if c.includesAny then
      match rget rs c.fromQ with
      | none => false
      | some r =>
        match r.values with
        | none => false
        | some vs => !vs.isEmpty
    else false

/-- The source key of a skip-logic table key: `logicKey.split('_')[0]`. -/
def sourceOfKey (key : String) : String :=
  (key.splitOn "_").headD ""

/-- `LTASkipLogicProcessor.shouldSkip` (router.js:325-347): skip when the
question declares a stakeholder restriction the current type fails, or when
any skip rule whose key's source is this question has a satisfied condition. -/
def shouldSkip (cfg : Config) (questionId : String) (rs : Responses)
    (stakeholderType : Option String) : Bool :=
  match cfg.questions.find? (fun q => q.id == questionId) with
  | none => false
  | some q =>
    match q.stakeholderTypes with
    | some sts =>
      match stakeholderType with
      | none => true
      | some st =>
        if !(sts.contains st) then true
        else cfg.skipLogic.any
          (fun p => sourceOfKey p.1 == questionId && evaluateCondition p.2.condition rs)
    | none =>
      cfg.skipLogic.any
        (fun p => sourceOfKey p.1 == questionId && evaluateCondition p.2.condition rs)

/-- **C6** — a declared `stakeholderTypes` restriction that the session's
current type fails (absent type, or type not in the list) makes `shouldSkip`
true, whatever the responses hold. -/
theorem c6_shouldSkip_stakeholder (cfg : Config) (q : Question) (rs : Responses)
    (st : Option String) (sts : List String)
    (hfind : cfg.questions.find? (fun p => p.id == q.id) = some q)
    (hdecl : q.stakeholderTypes = some sts)
    (hexcl : st = none ∨ ∃ s, st = some s ∧ sts.contains s = false) :
    shouldSkip cfg q.id rs st = true := by
  unfold shouldSkip
  rw [hfind]
  dsimp only
  rw [hdecl]
  rcases hexcl with h | ⟨s, hs, hmem⟩
  · rw [h]
  · rw [hs]
    dsimp only
    rw [hmem]
    rfl

/-- Concrete instance of `c6_shouldSkip_stakeholder`: a retailer-only
question is skipped for a consumer session, with responses present. -/
theorem c6_shouldSkip_stakeholder_witness :
    shouldSkip
      ⟨[⟨"q9", "awareness", true, some ["retailer"]⟩], []⟩
      "q9" [("q9", ⟨"q9", some "x", none, none, none⟩)] (some "consumer") = true := by
  apply c6_shouldSkip_stakeholder
    ⟨[⟨"q9", "awareness", true, some ["retailer"]⟩], []⟩
    ⟨"q9", "awareness", true, some ["retailer"]⟩
    [("q9", ⟨"q9", some "x", none, none, none⟩)] (some "consumer") ["retailer"]
  · rfl
  · rfl
  · exact Or.inr ⟨"consumer", rfl, by decide⟩

/-- **C7** — condition evaluation against a missing referenced response:
the equals predicate is false, the is-empty predicate is true, the
is-nonempty predicate is false. -/
theorem c7_evaluateCondition_missing (rs : Responses) (fromQ v : String)
    (anyB : Bool) (hmiss : rget rs fromQ = none) :
    evaluateCondition ⟨some v, false, false, fromQ⟩ rs = false ∧
    evaluateCondition ⟨none, true, anyB, fromQ⟩ rs = true ∧
    evaluateCondition ⟨none, false, true, fromQ⟩ rs = false := by
  refine ⟨?_, ?_, ?_⟩ <;> simp [evaluateCondition, hmiss]

/-- Concrete instance of `c7_evaluateCondition_missing` on a store that holds
a response to a different question. -/
theorem c7_evaluateCondition_missing_witness :
    evaluateCondition ⟨some "Yes", false, false, "q3"⟩
      [("q1", ⟨"q1", some "Yes", none, none, none⟩)] = false ∧
    evaluateCondition ⟨none, true, false, "q3"⟩
      [("q1", ⟨"q1", some "Yes", none, none, none⟩)] = true ∧
    evaluateCondition ⟨none, false, true, "q3"⟩
      [("q1", ⟨"q1", some "Yes", none, none, none⟩)] = false :=
  c7_evaluateCondition_missing
    [("q1", ⟨"q1", some "Yes", none, none, none⟩)] "q3" "Yes" false (by decide)

/-- `findIndex` — the JavaScript variant returning `-1` when no element
matches. -/
def jsFindIdx (p : Question → Bool) (l : List Question) : Int :=
  match l.findIdx? p with
  | some n => (n : Int)
  | none => -1

/-- `LTASkipLogicProcessor.getNextQuestionAfter` (router.js:296-305), with a
fuel bound on the source's recursion (one unit per skipped question). -/
def getNextQuestionAfter (cfg : Config) :
    Nat → String → Responses → Option String → Option Question
  | 0, _, _, _ => none
  | fuel + 1, questionId, rs, st =>
    match cfg.questions[(jsFindIdx (fun q => q.id == questionId) cfg.questions + 1).toNat]? with
    | none => none
    | some nq =>
      if shouldSkip cfg nq.id rs st then getNextQuestionAfter cfg fuel nq.id rs st
      else some nq

/-- The scanning loop of `handleSectionRouting` (router.js:313-320): visit
`count` successive catalog indices starting at `i`, returning the first
question that survives the skip filter.  A negative or out-of-bounds index
(which the source dereferences and crashes on) yields `none`. -/
def sectionScan (cfg : Config) (rs : Responses) (st : Option String) :
    Nat → Int → Option Question
  | 0, _ => none
  | count + 1, i =>
    if i < 0 then none
    else
      match cfg.questions[i.toNat]? with
      | none => none
      | some q =>
        if !shouldSkip cfg q.id rs st then some q
        else sectionScan cfg rs st count (i + 1)

/-- `LTASkipLogicProcessor.handleSectionRouting` (router.js:307-323).  The
`"start-end"` range string is split at `'-'`; when no question of the range
survives the skip filter the resolution falls through to the question after
`end`. -/
def handleSectionRouting (cfg : Config) (fuel : Nat) (rule : SkipRule)
    (rs : Responses) (st : Option String) : Option Question :=
  let raw := match rule.target with
    | some (SkipTarget.range r) => r
    | _ => ""
  let parts := raw.splitOn "-"
  let startQ := parts.headD ""
  let endQ := parts.getD 1 ""
  let si := jsFindIdx (fun q => q.id == startQ) cfg.questions
  let ei := jsFindIdx (fun q => q.id == endQ) cfg.questions
  match sectionScan cfg rs st (ei + 1 - si).toNat si with
  | some q => some q
  | none => getNextQuestionAfter cfg fuel endQ rs st

/-- `LTASkipLogicProcessor.applySkipLogic` (router.js:281-294).  A `skipTo`
rule returns its target by direct catalog lookup, with no eligibility
re-check; `show` and unrecognised actions resolve after `rule.from`;
`showSection` routes into the rule's range.  A `skipTo` rule without a
question target throws in the source, modelled as `none`; an absent
`rule.from` makes the source scan from index `-1` exactly as a never-matching
id does, modelled by the empty id. -/
def applySkipLogic (cfg : Config) (fuel : Nat) (rule : SkipRule)
    (rs : Responses) (st : Option String) : Option Question :=
  if rule.action == "skipTo" then
    match rule.target with
    | some (SkipTarget.toQuestion t) => cfg.questions.find? (fun q => q.id == t)
    | _ => none
  else if rule.action == "show" then
    getNextQuestionAfter cfg fuel (rule.fromQ.getD "") rs st
  else if rule.action == "showSection" then
    handleSectionRouting cfg fuel rule rs st
  else
    getNextQuestionAfter cfg fuel (rule.fromQ.getD "") rs st

/-- The value half of the skip-logic lookup key
`` `${currentQuestionId}_${responses.get(currentQuestionId)?.value}` ``:
an absent response or absent `value` field interpolates as `"undefined"`. -/
def keyValueOf (rs : Responses) (questionId : String) : String :=
  match rget rs questionId with
  | some r =>
    match r.value with
    | some v => v
    | none => "undefined"
  | none => "undefined"

/-- `LTASkipLogicProcessor.getNextQuestion` (router.js:259-279) with an
explicit fuel bound on the recursion through skipped questions.  An
unresolvable current question id falls back to the catalog's first
question. -/
def getNextQuestionAux (cfg : Config) :
    Nat → String → Responses → Option String → Option Question
  | 0, _, _, _ => none
  | fuel + 1, currentQuestionId, rs, st =>
    match cfg.questions.find? (fun q => q.id == currentQuestionId) with
    | none => cfg.questions[0]?
    | some _ =>
      match lookupRule cfg.skipLogic
          (currentQuestionId ++ "_" ++ keyValueOf rs currentQuestionId) with
      | some rule => applySkipLogic cfg fuel rule rs st
      | none =>
        match cfg.questions[(jsFindIdx (fun q => q.id == currentQuestionId) cfg.questions + 1).toNat]? with
        | none => none
        | some nq =>
          if shouldSkip cfg nq.id rs st then getNextQuestionAux cfg fuel nq.id rs st
          else some nq

/-- Entry point of the skip-logic walk: the source recursion advances the
current catalog index at every step, so `questions.length + 1` units of fuel
are never exhausted on the configurations the source terminates on. -/
def getNextQuestion (cfg : Config) (currentQuestionId : String) (rs : Responses)
    (st : Option String) : Option Question :=
  getNextQuestionAux cfg (cfg.questions.length + 1) currentQuestionId rs st

/-- Condition evaluation reads the store only through `rget`. -/
theorem evaluateCondition_ext {rs1 rs2 : Responses}
    (h : ∀ k, rget rs1 k = rget rs2 k) :
    ∀ c, evaluateCondition c rs1 = evaluateCondition c rs2 := by
  intro c
  unfold evaluateCondition
  simp only [h]

/-- The skip filter reads the store only through `rget`. -/
theorem shouldSkip_ext (cfg : Config) {rs1 rs2 : Responses}
    (h : ∀ k, rget rs1 k = rget rs2 k) :
    ∀ qid st, shouldSkip cfg qid rs1 st = shouldSkip cfg qid rs2 st := by
  intro qid st
  unfold shouldSkip
  simp only [evaluateCondition_ext h]

/-- Sequential resolution reads the store only through `rget`. -/
theorem getNextQuestionAfter_ext (cfg : Config) {rs1 rs2 : Responses}
    (h : ∀ k, rget rs1 k = rget rs2 k) :
    ∀ fuel qid st,
      getNextQuestionAfter cfg fuel qid rs1 st = getNextQuestionAfter cfg fuel qid rs2 st := by
  intro fuel
  induction fuel with
  | zero => intro qid st; rfl
  | succ n ih =>
    intro qid st
    unfold getNextQuestionAfter
    cases cfg.questions[(jsFindIdx (fun q => q.id == qid) cfg.questions + 1).toNat]? with
    | none => rfl
    | some nq => simp only [shouldSkip_ext cfg h, ih]

/-- The range scan reads the store only through `rget`. -/
theorem sectionScan_ext (cfg : Config) {rs1 rs2 : Responses}
    (h : ∀ k, rget rs1 k = rget rs2 k) :
    ∀ count i st, sectionScan cfg rs1 st count i = sectionScan cfg rs2 st count i := by
  intro count
  induction count with
  | zero => intro i st; rfl
  | succ n ih =>
    intro i st
    unfold sectionScan
    cases cfg.questions[i.toNat]? with
    | none => simp
    | some q => simp only [shouldSkip_ext cfg h, ih]

/-- Section routing reads the store only through `rget`. -/
theorem handleSectionRouting_ext (cfg : Config) {rs1 rs2 : Responses}
    (h : ∀ k, rget rs1 k = rget rs2 k) :
    ∀ fuel rule st,
      handleSectionRouting cfg fuel rule rs1 st = handleSectionRouting cfg fuel rule rs2 st := by
  intro fuel rule st
  unfold handleSectionRouting
  simp only [sectionScan_ext cfg h, getNextQuestionAfter_ext cfg h]

/-- Rule application reads the store only through `rget`. -/
theorem applySkipLogic_ext (cfg : Config) {rs1 rs2 : Responses}
    (h : ∀ k, rget rs1 k = rget rs2 k) :
    ∀ fuel rule st,
      applySkipLogic cfg fuel rule rs1 st = applySkipLogic cfg fuel rule rs2 st := by
  intro fuel rule st
  unfold applySkipLogic
  simp only [handleSectionRouting_ext cfg h, getNextQuestionAfter_ext cfg h]

/-- The key construction reads the store only through `rget`. -/
theorem keyValueOf_ext {rs1 rs2 : Responses}
    (h : ∀ k, rget rs1 k = rget rs2 k) :
    ∀ qid, keyValueOf rs1 qid = keyValueOf rs2 qid := by
  intro qid
  unfold keyValueOf
  simp only [h]

/-- The fueled walker reads the store only through `rget`. -/
theorem getNextQuestionAux_ext (cfg : Config) {rs1 rs2 : Responses}
    (h : ∀ k, rget rs1 k = rget rs2 k) :
    ∀ fuel cur st,
      getNextQuestionAux cfg fuel cur rs1 st = getNextQuestionAux cfg fuel cur rs2 st := by
  intro fuel
  induction fuel with
  | zero => intro cur st; rfl
  | succ n ih =>
    intro cur st
    unfold getNextQuestionAux
    cases cfg.questions.find? (fun q => q.id == cur) with
    | none => rfl
    | some q =>
      simp only [keyValueOf_ext h]
      cases lookupRule cfg.skipLogic (cur ++ "_" ++ keyValueOf rs2 cur) with
      | some rule => simp only [applySkipLogic_ext cfg h]
      | none =>
        cases cfg.questions[(jsFindIdx (fun p => p.id == cur) cfg.questions + 1).toNat]? with
        | none => rfl
        | some nq => simp only [shouldSkip_ext cfg h, ih]

/-- **C1** — `getNextQuestion` is pure: its output is determined by the
configuration, the current question id, the observable content of the
response map (its `get` view) and the stakeholder type alone.  In particular
two calls with identical inputs return the identical question (or none), and
the result is independent of the store's internal representation. -/
theorem c1_getNextQuestion_pure (cfg : Config) (cur : String) (st : Option String)
    (rs1 rs2 : Responses) (h : ∀ k, rget rs1 k = rget rs2 k) :
    getNextQuestion cfg cur rs1 st = getNextQuestion cfg cur rs2 st := by
  unfold getNextQuestion
  exact getNextQuestionAux_ext cfg h _ cur st

/-- A session record (`LTA_DB` sessions store, db.js:48-57).  Timestamps are
abstract clock readings (`Nat`). -/
structure Session where
  id : Nat
  completionStatus : String
  completedAt : Option Nat
  currentQuestion : String
  currentSection : String
  stakeholderType : Option String
  progress : Int
deriving Repr, DecidableEq

/-- `LTARouter.initialize` (router.js:11-24): resolve the session (an absent
session is a thrown `'Session not found'`), then load the stored responses
into the in-memory map (`Map.set` per record, later records overwriting
earlier ones). -/
def initSession (getSession : Nat → Option Session)
    (getSessionResponses : Nat → List Response) (sessionId : Nat) :
    Except String (Session × Responses) :=
  match getSession sessionId with
  | none => Except.error "Session not found"
  | some s =>
    Except.ok (s, (getSessionResponses sessionId).foldl (fun m r => mset m r.questionId r) [])

/-- `LTARouter.navigateToQuestion` (router.js:60-75): an id absent from the
catalog is a thrown error; otherwise the session's current question and
section are updated and the question returned. -/
def navigateToQuestion (cfg : Config) (questionId : String) (s : Session) :
    Except String (Session × Question) :=
  match cfg.questions.find? (fun q => q.id == questionId) with
  | none => Except.error ("Question " ++ questionId ++ " not found")
  | some q =>
    Except.ok ({ s with currentQuestion := questionId, currentSection := q.sectionId }, q)

/-- **C9, counterexample** — on a one-question catalog, computing the next
question from the unresolvable current id `"zzz"` silently returns the
catalog's first question (router.js:261) instead of surfacing an error. -/
theorem c9_nextQuestion_fallback_counterexample :
    getNextQuestion ⟨[⟨"q1", "screening", true, none⟩], []⟩ "zzz" [] none =
      some ⟨"q1", "screening", true, none⟩ ∧
    ¬ ("zzz" ∈ (Config.questions ⟨[⟨"q1", "screening", true, none⟩], []⟩).map Question.id) := by
  constructor
  · rfl
  · decide

/-- **C9, amended** — an absent session makes `initialize` raise, an absent
target id makes `navigateToQuestion` raise, but `getNextQuestion` called on
an unresolvable current question id does not raise: it falls back to the
catalog's first question. -/
theorem c9_notfound_amended :
    (∀ (gs : Nat → Option Session) (grs : Nat → List Response) (sid : Nat),
      gs sid = none → initSession gs grs sid = Except.error "Session not found") ∧
    (∀ (cfg : Config) (qid : String) (s : Session),
      cfg.questions.find? (fun q => q.id == qid) = none →
      navigateToQuestion cfg qid s = Except.error ("Question " ++ qid ++ " not found")) ∧
    (∀ (cfg : Config) (cur : String) (rs : Responses) (st : Option String),
      cfg.questions.find? (fun q => q.id == cur) = none →
      getNextQuestion cfg cur rs st = cfg.questions[0]?) := by
  refine ⟨?_, ?_, ?_⟩
  · intro gs grs sid hnone
    unfold initSession
    rw [hnone]
  · intro cfg qid s hnone
    unfold navigateToQuestion
    rw [hnone]
  · intro cfg cur rs st hnone
    unfold getNextQuestion getNextQuestionAux
    rw [hnone]

/-- Concrete instance of the three clauses of `c9_notfound_amended`. -/
theorem c9_notfound_amended_witness :
    initSession (fun _ => none) (fun _ => []) 7 = Except.error "Session not found" ∧
    navigateToQuestion ⟨[⟨"q1", "screening", true, none⟩], []⟩ "q2"
      ⟨1, "in_progress", none, "q1", "screening", none, 0⟩ =
      Except.error "Question q2 not found" ∧
    getNextQuestion ⟨[⟨"q1", "screening", true, none⟩], []⟩ "zzz" [] none =
      (Config.questions ⟨[⟨"q1", "screening", true, none⟩], []⟩)[0]? :=
  ⟨c9_notfound_amended.1 (fun _ => none) (fun _ => []) 7 rfl,
   c9_notfound_amended.2.1 ⟨[⟨"q1", "screening", true, none⟩], []⟩ "q2"
     ⟨1, "in_progress", none, "q1", "screening", none, 0⟩ rfl,
   c9_notfound_amended.2.2 ⟨[⟨"q1", "screening", true, none⟩], []⟩ "zzz" [] none rfl⟩

/-- Concrete instance of `c1_getNextQuestion_pure`: two stores with the same
`get` view — one holding a shadowed duplicate entry — yield the same next
question. -/
theorem c1_getNextQuestion_pure_witness :
    getNextQuestion ⟨[⟨"q1", "screening", true, none⟩, ⟨"q2", "awareness", true, none⟩], []⟩
      "q1" [("q1", ⟨"q1", some "Yes", none, none, none⟩)] none =
    getNextQuestion ⟨[⟨"q1", "screening", true, none⟩, ⟨"q2", "awareness", true, none⟩], []⟩
      "q1" [("q1", ⟨"q1", some "Yes", none, none, none⟩),
            ("q1", ⟨"q1", some "No", none, none, none⟩)] none :=
  c1_getNextQuestion_pure
    ⟨[⟨"q1", "screening", true, none⟩, ⟨"q2", "awareness", true, none⟩], []⟩ "q1" none
    [("q1", ⟨"q1", some "Yes", none, none, none⟩)]
    [("q1", ⟨"q1", some "Yes", none, none, none⟩),
     ("q1", ⟨"q1", some "No", none, none, none⟩)]
    (by
      intro k
      unfold rget
      cases h : (("q1" : String) == k) <;> simp [List.find?, h])

/-- One of the five marketing-funnel stages (analytics.js:44-50). -/
inductive Stage where
  | awareness
  | interest
  | consideration
  | action
  | advocacy
deriving Repr, DecidableEq

/-- The funnel metric record stored under the `'funnel'` key. -/
structure Funnel where
  awareness : ℚ
  interest : ℚ
  consideration : ℚ
  action : ℚ
  advocacy : ℚ
deriving Repr, DecidableEq

/-- The default funnel record created on first update (analytics.js:44-50). -/
def zeroFunnel : Funnel := ⟨0, 0, 0, 0, 0⟩

/-- Read the field of a funnel record named by a stage. -/
def getStage (f : Funnel) : Stage → ℚ
  | Stage.awareness => f.awareness
  | Stage.interest => f.interest
  | Stage.consideration => f.consideration
  | Stage.action => f.action
  | Stage.advocacy => f.advocacy

/-- Write the field of a funnel record named by a stage. -/
def setStage (f : Funnel) : Stage → ℚ → Funnel
  | Stage.awareness, x => { f with awareness := x }
  | Stage.interest, x => { f with interest := x }
  | Stage.consideration, x => { f with consideration := x }
  | Stage.action, x => { f with action := x }
  | Stage.advocacy, x => { f with advocacy := x }

/-- `LTAAnalyticsEngine.determineFunnelStage` (analytics.js:56-74): the
response's `section` tag names the stage; any other section yields `null`. -/
def determineFunnelStage (r : Response) : Option Stage :=
  match r.sectionId with
  | some "awareness" => some Stage.awareness
  | some "interest" => some Stage.interest
  | some "consideration" => some Stage.consideration
  | some "action" => some Stage.action
  | some "advocacy" => some Stage.advocacy
  | _ => none

/-- Whitespace for the purposes of the `/\s+/` split. -/
def isWsChar (c : Char) : Bool :=
  c == ' ' || c == '\t' || c == '\n' || c == '\r'

/-- Count the maximal whitespace runs of a character list; the flag records
whether the previous character was whitespace. -/
def wsRunsGo : List Char → Bool → Nat
  | [], _ => 0
  | c :: rest, inRun =>
    if isWsChar c then (if inRun then 0 else 1) + wsRunsGo rest true
    else wsRunsGo rest false

/-- `s.split(/\s+/).length`: one piece more than there are maximal
whitespace runs (boundary runs contribute empty pieces, as in JavaScript). -/
def jsWsSplitCount (s : String) : Nat :=
  wsRunsGo s.data false + 1

/-- `LTAAnalyticsEngine.calculateRecallScore` (analytics.js:94-98): falsy
text scores 0, otherwise twice the whitespace-split word count, capped
at 10. -/
def calculateRecallScore (text : Option String) : ℚ :=
  match text with
  | none => 0
  | some t => if t = "" then 0 else min ((jsWsSplitCount t : ℚ) * 2) 10

/-- `LTAAnalyticsEngine.mapInterestToScore` (analytics.js:100-109). -/
def mapInterestToScore (v : String) : ℚ :=
  if v = "Not at all" then 0
  else if v = "Slightly" then 2.5
  else if v = "Moderately" then 5
  else if v = "Significantly" then 7.5
  else if v = "Extremely" then 10
  else 0

/-- The decimal value of a digit list. -/
def digitsVal (l : List Char) : Nat :=
  l.foldl (fun a c => a * 10 + (c.toNat - Char.toNat '0')) 0

/-- Leading-digit parse: `none` when no digit leads the list. -/
def parseDigits (l : List Char) : Option Nat :=
  if (l.takeWhile Char.isDigit).isEmpty then none
  else some (digitsVal (l.takeWhile Char.isDigit))

/-- JavaScript `parseInt` on the decimal inputs this codebase feeds it:
trim, optional sign, longest leading digit run; `none` models the `NaN`
result on digit-free input. -/
def jsParseInt (s : String) : Option Int :=
  match s.trim.data with
  | '-' :: r => (parseDigits r).map (fun n => -(n : Int))
  | '+' :: r => (parseDigits r).map (fun n => (n : Int))
  | r => (parseDigits r).map (fun n => (n : Int))

/-- `parseInt` coerced to a score; a `NaN` (which would poison every later
comparison in the source rather than decrease anything) is out of this
rational model and read as 0. -/
def jsParseIntOr0 (s : String) : ℚ :=
  match jsParseInt s with
  | some n => (n : ℚ)
  | none => 0

/-- `LTAAnalyticsEngine.calculateStageScore` (analytics.js:76-92): the five
designated questions use their own rule; every other question id scores the
constant 5. -/
def calculateStageScore (r : Response) : ℚ :=
  if r.questionId = "q8" then calculateRecallScore r.value
  else if r.questionId = "q20" then mapInterestToScore (r.value.getD "")
  else if r.questionId = "q31" then
    match r.values with
    | some vs => if vs.length > 0 then 10 else 0
    | none => 0
  else if r.questionId = "q43" then
    match r.values with
    | some vs => if vs.length > 0 then 10 else 0
    | none => 0
  else if r.questionId = "q54" then jsParseIntOr0 (r.value.getD "") / 10 * 10
  else 5

/-- `LTAAnalyticsEngine.updateFunnelMetrics` (analytics.js:40-54): no stage,
no change; otherwise the stage's entry of the stored funnel record (zeroes
when absent) becomes the maximum of its previous value and the response's
stage score. -/
def updateFunnelMetrics (st : Option Funnel) (r : Response) : Option Funnel :=
  match determineFunnelStage r with
  | none => st
  | some stage =>
    some (setStage (st.getD zeroFunnel) stage
      (max (getStage (st.getD zeroFunnel) stage) (calculateStageScore r)))

theorem getStage_setStage_self (f : Funnel) (s : Stage) (x : ℚ) :
    getStage (setStage f s x) s = x := by
  cases s <;> rfl

theorem getStage_setStage_other (f : Funnel) (s s' : Stage) (x : ℚ) (h : s' ≠ s) :
    getStage (setStage f s x) s' = getStage f s' := by
  cases s <;> cases s' <;> first
    | rfl
    | exact absurd rfl h

/-- A single funnel update never decreases any stage's stored score. -/
theorem updateFunnelMetrics_step_mono (st : Option Funnel) (r : Response) (stage : Stage) :
    getStage (st.getD zeroFunnel) stage ≤
      getStage ((updateFunnelMetrics st r).getD zeroFunnel) stage := by
  unfold updateFunnelMetrics
  cases determineFunnelStage r with
  | none => exact le_refl _
  | some s' =>
    by_cases h : stage = s'
    · subst h
      simp only [Option.getD_some, getStage_setStage_self]
      exact le_max_left _ _
    · simp only [Option.getD_some, getStage_setStage_other _ _ _ _ h]
      exact le_refl _

/-- **C3** — the stored funnel score of a stage is the running maximum: a
response mapped to a stage replaces that stage's score by
`max previous (stage score of the response)`, and along any sequence of
updates no stage's stored score ever decreases. -/
theorem c3_funnel_stage_monotone_max :
    (∀ (st : Option Funnel) (r : Response) (stage : Stage),
      determineFunnelStage r = some stage →
      getStage ((updateFunnelMetrics st r).getD zeroFunnel) stage =
        max (getStage (st.getD zeroFunnel) stage) (calculateStageScore r)) ∧
    (∀ (st : Option Funnel) (rs : List Response) (stage : Stage),
      getStage (st.getD zeroFunnel) stage ≤
        getStage ((rs.foldl updateFunnelMetrics st).getD zeroFunnel) stage) := by
  constructor
  · intro st r stage hst
    unfold updateFunnelMetrics
    rw [hst]
    simp only [Option.getD_some, getStage_setStage_self]
  · intro st rs
    induction rs generalizing st with
    | nil => intro stage; exact le_refl _
    | cons r rest ih =>
      intro stage
      exact le_trans (updateFunnelMetrics_step_mono st r stage) (ih _ stage)

/-- Concrete instance of `c3_funnel_stage_monotone_max`: an advocacy-section
NPS response on a fresh store, then a second update over the same store. -/
theorem c3_funnel_stage_monotone_max_witness :
    getStage ((updateFunnelMetrics none ⟨"q54", some "9", none, none, some "advocacy"⟩).getD
        zeroFunnel) Stage.advocacy =
      max (getStage ((none : Option Funnel).getD zeroFunnel) Stage.advocacy)
        (calculateStageScore ⟨"q54", some "9", none, none, some "advocacy"⟩) ∧
    getStage ((none : Option Funnel).getD zeroFunnel) Stage.advocacy ≤
      getStage (([⟨"q54", some "9", none, none, some "advocacy"⟩,
          ⟨"q55", some "1", none, none, some "advocacy"⟩] :
            List Response).foldl updateFunnelMetrics none |>.getD zeroFunnel) Stage.advocacy :=
  ⟨c3_funnel_stage_monotone_max.1 none ⟨"q54", some "9", none, none, some "advocacy"⟩
      Stage.advocacy rfl,
   c3_funnel_stage_monotone_max.2 none
      [⟨"q54", some "9", none, none, some "advocacy"⟩,
       ⟨"q55", some "1", none, none, some "advocacy"⟩] Stage.advocacy⟩

/-- **C10** — every response whose question id is not one of `q8`, `q20`,
`q31`, `q43`, `q54` gets the default stage score 5, so processing such a
response mapped to a funnel stage forces that stage's stored score to at
least 5. -/
theorem c10_default_stage_score (r : Response) (st : Option Funnel) (stage : Stage)
    (hq : r.questionId ∉ (["q8", "q20", "q31", "q43", "q54"] : List String)) :
    calculateStageScore r = 5 ∧
    (determineFunnelStage r = some stage →
      ∃ f, updateFunnelMetrics st r = some f ∧ 5 ≤ getStage f stage) := by
  simp only [List.mem_cons, List.not_mem_nil, or_false, not_or] at hq
  obtain ⟨h8, h20, h31, h43, h54⟩ := hq
  have hscore : calculateStageScore r = 5 := by
    unfold calculateStageScore
    rw [if_neg h8, if_neg h20, if_neg h31, if_neg h43, if_neg h54]
  refine ⟨hscore, fun hst => ?_⟩
  refine ⟨_, by unfold updateFunnelMetrics; rw [hst], ?_⟩
  rw [getStage_setStage_self, hscore]
  exact le_max_right _ _

/-- Concrete instance of `c10_default_stage_score`: an awareness-section
response to `q10` scores 5 and pushes the awareness stage to at least 5. -/
theorem c10_default_stage_score_witness :
    calculateStageScore ⟨"q10", some "Yes", none, none, some "awareness"⟩ = 5 ∧
    (∃ f, updateFunnelMetrics none ⟨"q10", some "Yes", none, none, some "awareness"⟩ =
        some f ∧ 5 ≤ getStage f Stage.awareness) :=
  ⟨(c10_default_stage_score ⟨"q10", some "Yes", none, none, some "awareness"⟩ none
      Stage.awareness (by decide)).1,
   (c10_default_stage_score ⟨"q10", some "Yes", none, none, some "awareness"⟩ none
      Stage.awareness (by decide)).2 rfl⟩

/-- The record returned by `LTARouter.getProgress` (router.js:95-103). -/
structure Progress where
  percentage : ℤ
  answered : Nat
  total : Nat
deriving Repr, DecidableEq

/-- `LTARouter.getProgress` (router.js:95-103): `Map.size` over the total
catalog size, rounded to a percentage. -/
def getProgress (cfg : Config) (rs : Responses) : Progress :=
  { percentage := round (((rs.length : ℚ) / (cfg.questions.length : ℚ)) * 100),
    answered := rs.length,
    total := cfg.questions.length }

/-- `Math.round` is monotone (it is `⌊· + 1/2⌋`). -/
theorem round_rat_mono {x y : ℚ} (h : x ≤ y) : round x ≤ round y := by
  rw [round_eq, round_eq]
  exact Int.floor_le_floor (by linarith)

/-- **C4** — for a store whose keys are distinct and all drawn from the
catalog (the invariant `Map.set` maintains for catalog questions),
`getProgress` reports `round (100 * distinct answered / total)`, a value in
`[0, 100]`.  The distinct-key count is written `(rs.map Prod.fst).dedup.length`
— the number of distinct answered question ids. -/
theorem c4_progress_percentage (cfg : Config) (rs : Responses)
    (hnd : (rs.map Prod.fst).Nodup)
    (hsub : ∀ p ∈ rs, p.1 ∈ cfg.questions.map Question.id)
    (hpos : 0 < cfg.questions.length) :
    (getProgress cfg rs).percentage =
      round ((100 * (((rs.map Prod.fst).dedup.length : ℕ) : ℚ)) / (cfg.questions.length : ℚ)) ∧
    0 ≤ (getProgress cfg rs).percentage ∧
    (getProgress cfg rs).percentage ≤ 100 := by
  have hkeys : (rs.map Prod.fst).dedup.length = rs.length := by
    rw [hnd.dedup, List.length_map]
  have hle : rs.length ≤ cfg.questions.length := by
    have h1 : (rs.map Prod.fst).toFinset.card = rs.length := by
      rw [List.toFinset_card_of_nodup hnd, List.length_map]
    have h2 : (rs.map Prod.fst).toFinset ⊆ (cfg.questions.map Question.id).toFinset := by
      intro x hx
      rw [List.mem_toFinset] at hx ⊢
      obtain ⟨p, hp, rfl⟩ := List.mem_map.1 hx
      exact hsub p hp
    have h3 := Finset.card_le_card h2
    have h4 : (cfg.questions.map Question.id).toFinset.card ≤ cfg.questions.length := by
      calc (cfg.questions.map Question.id).toFinset.card
          ≤ (cfg.questions.map Question.id).length := List.toFinset_card_le _
        _ = cfg.questions.length := List.length_map _ _
    omega
  have harg : ((rs.length : ℚ) / (cfg.questions.length : ℚ)) * 100 =
      (100 * ((rs.length : ℕ) : ℚ)) / (cfg.questions.length : ℚ) := by ring
  refine ⟨?_, ?_, ?_⟩
  · show round (((rs.length : ℚ) / (cfg.questions.length : ℚ)) * 100) = _
    rw [harg, hkeys]
  · show (0 : ℤ) ≤ round (((rs.length : ℚ) / (cfg.questions.length : ℚ)) * 100)
    have h0 : (0 : ℚ) ≤ ((rs.length : ℚ) / (cfg.questions.length : ℚ)) * 100 := by
      positivity
    calc (0 : ℤ) = round (0 : ℚ) := (round_zero).symm
      _ ≤ _ := round_rat_mono h0
  · show round (((rs.length : ℚ) / (cfg.questions.length : ℚ)) * 100) ≤ 100
    have htpos : (0 : ℚ) < (cfg.questions.length : ℚ) := by
      exact_mod_cast hpos
    have hratio : ((rs.length : ℚ) / (cfg.questions.length : ℚ)) * 100 ≤ 100 := by
      have hq : (rs.length : ℚ) ≤ (cfg.questions.length : ℚ) := by exact_mod_cast hle
      have : (rs.length : ℚ) / (cfg.questions.length : ℚ) ≤ 1 :=
        (div_le_one htpos).2 hq
      linarith
    calc round (((rs.length : ℚ) / (cfg.questions.length : ℚ)) * 100)
        ≤ round ((100 : ℚ)) := round_rat_mono hratio
      _ = 100 := round_ofNat 100

/-- Concrete instance of `c4_progress_percentage`: two of three questions
answered gives 67 percent. -/
theorem c4_progress_percentage_witness :
    (getProgress
        ⟨[⟨"q1", "screening", true, none⟩, ⟨"q2", "awareness", true, none⟩,
          ⟨"q3", "awareness", true, none⟩], []⟩
        [("q1", ⟨"q1", some "Yes", none, none, none⟩),
         ("q2", ⟨"q2", some "No", none, none, none⟩)]).percentage =
      round ((100 * ((([("q1", (⟨"q1", some "Yes", none, none, none⟩ : Response)),
            ("q2", ⟨"q2", some "No", none, none, none⟩)].map Prod.fst).dedup.length : ℕ) : ℚ)) /
          ((Config.questions ⟨[⟨"q1", "screening", true, none⟩, ⟨"q2", "awareness", true, none⟩,
            ⟨"q3", "awareness", true, none⟩], []⟩).length : ℚ)) ∧
    0 ≤ (getProgress
        ⟨[⟨"q1", "screening", true, none⟩, ⟨"q2", "awareness", true, none⟩,
          ⟨"q3", "awareness", true, none⟩], []⟩
        [("q1", ⟨"q1", some "Yes", none, none, none⟩),
         ("q2", ⟨"q2", some "No", none, none, none⟩)]).percentage ∧
    (getProgress
        ⟨[⟨"q1", "screening", true, none⟩, ⟨"q2", "awareness", true, none⟩,
          ⟨"q3", "awareness", true, none⟩], []⟩
        [("q1", ⟨"q1", some "Yes", none, none, none⟩),
         ("q2", ⟨"q2", some "No", none, none, none⟩)]).percentage ≤ 100 :=
  c4_progress_percentage
    ⟨[⟨"q1", "screening", true, none⟩, ⟨"q2", "awareness", true, none⟩,
      ⟨"q3", "awareness", true, none⟩], []⟩
    [("q1", ⟨"q1", some "Yes", none, none, none⟩),
     ("q2", ⟨"q2", some "No", none, none, none⟩)]
    (by decide) (by decide) (by decide)

/-- `LTARouter.canSubmit` (router.js:122-128): the required questions without
a stored response must number zero. -/
def canSubmit (cfg : Config) (rs : Responses) : Bool :=
  ((cfg.questions.filter (fun q => q.required)).filter (fun q => !(rhas rs q.id))).length == 0

/-- **C5** — `canSubmit` is true exactly when every required question has a
stored response, and false exactly when some required question lacks one. -/
theorem c5_canSubmit_iff (cfg : Config) (rs : Responses) :
    (canSubmit cfg rs = true ↔
      ∀ q ∈ cfg.questions, q.required = true → rhas rs q.id = true) ∧
    (canSubmit cfg rs = false ↔
      ∃ q ∈ cfg.questions, q.required = true ∧ rhas rs q.id = false) := by
  have hmain : canSubmit cfg rs = true ↔
      ∀ q ∈ cfg.questions, q.required = true → rhas rs q.id = true := by
    unfold canSubmit
    rw [beq_iff_eq, List.length_eq_zero, List.filter_eq_nil_iff]
    constructor
    · intro h q hq hreq
      have := h q (List.mem_filter.2 ⟨hq, hreq⟩)
      simpa using this
    · intro h q hq
      obtain ⟨hq', hreq⟩ := List.mem_filter.1 hq
      simp [h q hq' hreq]
  refine ⟨hmain, ?_⟩
  rw [← Bool.not_eq_true, hmain]
  push_neg
  constructor
  · rintro ⟨q, hq, hreq, hhas⟩
    exact ⟨q, hq, hreq, by simpa using hhas⟩
  · rintro ⟨q, hq, hreq, hhas⟩
    exact ⟨q, hq, hreq, by simp [hhas]⟩

/-- Substring test, `text.includes(pat)` for a nonempty pattern: splitting at
the pattern yields more than one piece exactly when it occurs. -/
def strContainsSub (s pat : String) : Bool :=
  (s.splitOn pat).length != 1

/-- The hardcoded concept list of `LTARouter.extractConcepts`
(router.js:211-214). -/
def conceptList : List String :=
  ["limpopo", "tourism", "campaign", "event", "marketing", "destination", "lta"]

/-- `LTARouter.extractConcepts` (router.js:211-214). -/
def extractConcepts (text : String) : List String :=
  conceptList.filter (fun c => strContainsSub text.toLower c)

/-- `LTARouter.analyzeOpenEndedResponse` (router.js:202-209): falsy text
scores 0, otherwise a tenth of the trimmed word count plus two per matched
concept, capped at 10. -/
def analyzeOpenEndedResponse (text : Option String) : ℚ :=
  match text with
  | none => 0
  | some t =>
    if t = "" then 0
    else min ((jsWsSplitCount t.trim : ℚ) * 0.1 + ((extractConcepts t).length : ℚ) * 2) 10

/-- The awareness level table of `LTARouter.calculateMatrixScore`
(router.js:219-225); an unknown label reads 0 (`scores[value] || 0`). -/
def awarenessScoreOf (v : String) : ℚ :=
  if v = "Not aware at all" then 0
  else if v = "Vaguely aware" then 1
  else if v = "Somewhat aware" then 2
  else if v = "Very aware" then 3
  else if v = "Extensively aware" then 4
  else 0

/-- `LTARouter.calculateMatrixScore` (router.js:216-232).  An empty matrix
divides by zero — `NaN` in the source, 0 in this rational model. -/
def calculateMatrixScore (m : Option (List (String × String))) : ℚ :=
  match m with
  | none => 0
  | some rows =>
    (rows.foldl (fun acc p => acc + awarenessScoreOf p.2) 0) / ((rows.length : ℚ) * 4) * 10

/-- `LTARouter.mapLikertToScore` (router.js:234-243). -/
def mapLikertToScore (v : String) : ℚ :=
  if v = "Not at all" then 0
  else if v = "Slightly" then 2.5
  else if v = "Moderately" then 5
  else if v = "Significantly" then 7.5
  else if v = "Extremely" then 10
  else 0

/-- `LTARouter.calculateNPSCategory` (router.js:245-249). -/
def calculateNPSCategory (score : ℚ) : String :=
  if score ≥ 9 then "promoter"
  else if score ≥ 7 then "passive"
  else "detractor"

/-- The awareness block of the final analytics (router.js:155-168). -/
structure AwarenessMetrics where
  unaidedRecallScore : ℚ
  aidedRecallScore : ℚ
deriving Repr, DecidableEq

/-- The engagement block of the final analytics (router.js:170-178). -/
structure EngagementMetrics where
  interestScore : ℚ
deriving Repr, DecidableEq

/-- The conversion block of the final analytics (router.js:180-189). -/
structure ConversionMetrics where
  npsScore : ℚ
  npsCategory : String
deriving Repr, DecidableEq

/-- The strategic block of the final analytics (router.js:191-199). -/
structure StrategicMetrics where
  overallImpression : ℚ
deriving Repr, DecidableEq

/-- The `final_assessment` analytics snapshot (router.js:143-153). -/
structure FinalAnalytics where
  awareness : AwarenessMetrics
  engagement : EngagementMetrics
  conversion : ConversionMetrics
  strategic : StrategicMetrics
deriving Repr, DecidableEq

/-- `LTARouter.calculateAwarenessMetrics` (router.js:155-168): recall scores
from `q8` and `q9`, defaulting to 0 when the responses are absent. -/
def calculateAwarenessMetrics (rs : Responses) : AwarenessMetrics :=
  { unaidedRecallScore :=
      match rget rs "q8" with
      | some r => analyzeOpenEndedResponse r.value
      | none => 0,
    aidedRecallScore :=
      match rget rs "q9" with
      | some r => calculateMatrixScore r.matrix
      | none => 0 }

/-- `LTARouter.calculateEngagementMetrics` (router.js:170-178). -/
def calculateEngagementMetrics (rs : Responses) : EngagementMetrics :=
  { interestScore :=
      match rget rs "q20" with
      | some r => mapLikertToScore (r.value.getD "")
      | none => 0 }

/-- `LTARouter.calculateConversionMetrics` (router.js:180-189): the NPS score
is `parseInt` of the `q54` response, defaulting to 0 when no such response is
recorded; the category is derived from that score. -/
def calculateConversionMetrics (rs : Responses) : ConversionMetrics :=
  { npsScore :=
      match rget rs "q54" with
      | some r => jsParseIntOr0 (r.value.getD "")
      | none => 0,
    npsCategory :=
      calculateNPSCategory
        (match rget rs "q54" with
         | some r => jsParseIntOr0 (r.value.getD "")
         | none => 0) }

/-- `LTARouter.calculateStrategicMetrics` (router.js:191-199). -/
def calculateStrategicMetrics (rs : Responses) : StrategicMetrics :=
  { overallImpression :=
      match rget rs "q87" with
      | some r => jsParseIntOr0 (r.value.getD "")
      | none => 0 }

/-- `LTARouter.generateFinalAnalytics` (router.js:143-153): the four blocks
computed from the response store and saved as the `final_assessment`
snapshot. -/
def generateFinalAnalytics (rs : Responses) : FinalAnalytics :=
  { awareness := calculateAwarenessMetrics rs,
    engagement := calculateEngagementMetrics rs,
    conversion := calculateConversionMetrics rs,
    strategic := calculateStrategicMetrics rs }

/-- A recommendation record (analytics.js:369-374). -/
structure Recommendation where
  area : String
  recommendation : String
  priority : String
  impact : String
deriving Repr, DecidableEq

/-- `LTAAnalyticsEngine.generateRecommendations` (analytics.js:364-401):
each category below its threshold (awareness < 5, engagement < 5,
conversion < 7) emits its record; an absent snapshot
(`finalAnalytics?.data || {}`) satisfies no threshold check; when nothing
fires, the single generic recommendation is returned. -/
def generateRecommendations (data : Option FinalAnalytics) : List Recommendation :=
  let awRecs : List Recommendation :=
    match data with
    | some d =>
      if d.awareness.unaidedRecallScore < 5 then
        [⟨"Awareness", "Increase campaign frequency and diversify media channels",
          "High", "Direct impact on brand recognition"⟩]
      else []
    | none => []
  let engRecs : List Recommendation :=
    match data with
    | some d =>
      if d.engagement.interestScore < 5 then
        [⟨"Engagement", "Enhance content creativity and emotional appeal",
          "Medium", "Improved audience connection"⟩]
      else []
    | none => []
  let convRecs : List Recommendation :=
    match data with
    | some d =>
      if d.conversion.npsScore < 7 then
        [⟨"Advocacy", "Implement referral programs and ambassador initiatives",
          "High", "Increased word-of-mouth marketing"⟩]
      else []
    | none => []
  let recs := awRecs ++ engRecs ++ convRecs
  if recs.isEmpty then
    [⟨"General", "Continue current optimization strategy with regular assessment",
      "Medium", "Sustained performance improvement"⟩]
  else recs

/-- **C8** — with no `q54` response recorded, the final conversion score
defaults to 0 (no error is possible: every branch is total), and the
recommendation generator over that snapshot emits the `Advocacy`
recommendation, since 0 is below the threshold 7. -/
theorem c8_missing_conversion_defaults (rs : Responses)
    (hmiss : rget rs "q54" = none) :
    (generateFinalAnalytics rs).conversion.npsScore = 0 ∧
    (⟨"Advocacy", "Implement referral programs and ambassador initiatives",
      "High", "Increased word-of-mouth marketing"⟩ : Recommendation) ∈
      generateRecommendations (some (generateFinalAnalytics rs)) := by
  have h0 : (generateFinalAnalytics rs).conversion.npsScore = 0 := by
    show (calculateConversionMetrics rs).npsScore = 0
    unfold calculateConversionMetrics
    rw [hmiss]
  refine ⟨h0, ?_⟩
  unfold generateRecommendations
  dsimp only
  rw [h0]
  rw [if_pos (by norm_num : (0 : ℚ) < 7)]
  by_cases ha : (generateFinalAnalytics rs).awareness.unaidedRecallScore < 5 <;>
    by_cases he : (generateFinalAnalytics rs).engagement.interestScore < 5 <;>
    simp [ha, he]

/-- Concrete instance of `c8_missing_conversion_defaults` on an empty
response store. -/
theorem c8_missing_conversion_defaults_witness :
    (generateFinalAnalytics []).conversion.npsScore = 0 ∧
    (⟨"Advocacy", "Implement referral programs and ambassador initiatives",
      "High", "Increased word-of-mouth marketing"⟩ : Recommendation) ∈
      generateRecommendations (some (generateFinalAnalytics [])) :=
  c8_missing_conversion_defaults [] rfl

/-- `LTARouter.completeSession` (router.js:130-141): unconditionally mark the
session completed, stamp the clock value the call reads (`new Date()`), and
recompute and re-save the final analytics.  There is no completed-status
guard. -/
def completeSession (now : Nat) (s : Session) (rs : Responses) :
    Session × FinalAnalytics :=
  ({ s with completionStatus := "completed", completedAt := some now },
   generateFinalAnalytics rs)

/-- **C2, counterexample** — `completeSession` is not a no-op on an
already-completed session: a second call at clock 2 overwrites the completion
timestamp the first call wrote at clock 1. -/
theorem c2_completeSession_counterexample :
    (completeSession 2
        (completeSession 1 ⟨1, "in_progress", none, "q1", "screening", none, 0⟩ []).1
        []).1.completedAt ≠
      (completeSession 1 ⟨1, "in_progress", none, "q1", "screening", none, 0⟩
        []).1.completedAt := by
  decide

/-- **C2, amended** — `completeSession` has no completed guard: a second call
leaves the status `'completed'`, overwrites `completedAt` with the second
call's clock reading, and recomputes the final analytics; given an unchanged
response store the recomputed analytics equal the first call's. -/
theorem c2_completeSession_amended (s : Session) (rs : Responses) (t1 t2 : Nat) :
    (completeSession t2 (completeSession t1 s rs).1 rs).1.completionStatus = "completed" ∧
    (completeSession t2 (completeSession t1 s rs).1 rs).1.completedAt = some t2 ∧
    (completeSession t2 (completeSession t1 s rs).1 rs).2 = (completeSession t1 s rs).2 :=
  ⟨rfl, rfl, rfl⟩
